import Mathlib

/-!
Verification of the WebSocket session/connection management subsystem of the
sanity agent backend.  The definitions below are shallow embeddings of the
TypeScript sources:

  * namespace LG   - src/server/langGraphWebSocketServer.ts
                     (class LangGraphWebSocketServer)
  * namespace WS   - src/server/websocketServer.ts
                     (class MCPWebSocketServer, plain variant)
  * namespace MCPE - the enhanced Mastra WebSocket server variant shipped in
                     the repository (unnamed source file; class
                     MCPWebSocketServer with session store, heartbeat and
                     reconnection support)

Modelling conventions.  JavaScript Map objects are association lists with
first-match lookup, update-in-place set, and delete.  Date.now() values are
Int milliseconds supplied as parameters; rendering a timestamp with
Date.toISOString() is modelled by the injective function toIso.  The external
agent collaborator is opaque: its state snapshots are opaque tokens and the
outcome of its generate call is an Except value supplied as a parameter.
A terminated socket fires its close handler; the heartbeat model folds that
handler into the tick, matching the source close handler.
-/

namespace AgentBackend

/-- Maximum number of documents kept in the selection (MAX_DOCUMENTS). -/
def MAX_DOCUMENTS : Nat := 10

/-- Maximum reconnection attempts for socket-error recovery. -/
def MAX_RECONNECT_ATTEMPTS : Nat := 3

/-- Base reconnection delay in ms. -/
def RECONNECT_BASE_DELAY : Int := 1000

/-- Session expiry window in ms (1 hour). -/
def SESSION_EXPIRY : Int := 60 * 60 * 1000

/-- Heartbeat interval in ms (30 seconds). -/
def HEARTBEAT_INTERVAL : Int := 30000

/-- The wire protocol message kinds (type MessageType in both servers). -/
inductive MessageType where
  | user_message
  | agent_message
  | document_set_update
  | document_focus
  | thinking_state
  | error
  | ping
  | pong
  | reconnect
  deriving DecidableEq, Repr

/-- Rendering of a MessageType as the wire string. -/
def messageTypeStr : MessageType → String
  | .user_message => "user_message"
  | .agent_message => "agent_message"
  | .document_set_update => "document_set_update"
  | .document_focus => "document_focus"
  | .thinking_state => "thinking_state"
  | .error => "error"
  | .ping => "ping"
  | .pong => "pong"
  | .reconnect => "reconnect"

/-- Models Date.toISOString on an Int millisecond timestamp as an injective
rendering; the servers only thread these strings through replies. -/
def toIso (t : Int) : String := "iso-" ++ toString t

/-- A single-quote character, used inside user-facing reply strings. -/
def apos : String := String.singleton (Char.ofNat 39)

/-- DocumentReference (identical interface in all three server variants):
metadata-only pointer to a document. -/
structure DocumentReference where
  id : String
  type : Option String := none
  title : Option String := none
  path : Option String := none
  lastModified : Option String := none
  deriving DecidableEq, Repr

/-- One entry of the documents array in a document_set_update payload:
built as id, title (doc.title falling back to doc.id), type, lastModified. -/
structure DocView where
  id : String
  title : String
  type : Option String := none
  lastModified : Option String := none
  deriving DecidableEq, Repr

/-- Truthiness of an optional JS string: undefined and the empty string are
falsy. -/
def truthy : Option String → Bool
  | none => false
  | some s => !(s == "")

/-- Build the documents payload entries from a selection
(doc.title falling back to doc.id follows JS truthiness). -/
def docViews (sel : List DocumentReference) : List DocView :=
  sel.map (fun doc =>
    { id := doc.id
      title := if truthy doc.title then doc.title.getD doc.id else doc.id
      type := doc.type
      lastModified := doc.lastModified })

/-- Session metadata carried inside the server state (session field of the
WebSocketState and MCPAgentState interfaces). -/
structure SessionMeta where
  id : String
  startedAt : String
  lastActivity : String
  deriving DecidableEq, Repr

/-- Session info object attached to a document_set_update payload. -/
structure SessionInfo where
  id : String
  lastActivity : String
  startedAt : Option String := none
  reconnected : Option Bool := none
  deriving DecidableEq, Repr

/-- Union of the optional payload fields that the servers ever write;
absent JSON fields are none. -/
structure Payload where
  message : Option String := none
  content : Option String := none
  code : Option String := none
  state : Option String := none
  action : Option String := none
  documentId : Option String := none
  reconnect : Option Bool := none
  sessionId : Option String := none
  delay : Option Int := none
  timestamp : Option String := none
  timestampMs : Option Int := none
  path : Option String := none
  sessionRestored : Option Bool := none
  newSessionId : Option String := none
  documents : Option (List DocView) := none
  session : Option SessionInfo := none
  deriving DecidableEq, Repr

/-- One outbound wire frame. -/
structure Frame where
  type : MessageType
  payload : Payload
  requestId : Option String := none
  deriving DecidableEq, Repr

/-- An inbound frame after JSON parsing (interface WebSocketMessage). -/
structure WSMessage where
  type : MessageType
  payload : Payload
  requestId : Option String := none
  sessionId : Option String := none
  deriving DecidableEq, Repr

/-- Opaque snapshot of the external agent collaborator state
(SanityAgentState); contents are never inspected by the server, so it is
modelled as an opaque token. -/
structure SanityAgentState where
  token : Nat
  deriving DecidableEq, Repr

/-- Per-connection client record of the session-aware servers
(interface Client in langGraphWebSocketServer.ts and the enhanced variant).
The map key carries the id; readyStateOpen models
ws.readyState === WebSocket.OPEN. -/
structure Client where
  sessionId : Option String := none
  lastActive : Int := 0
  isAlive : Bool := true
  reconnectAttempts : Nat := 0
  readyStateOpen : Bool := true
  deriving DecidableEq, Repr

/-- Association-list lookup: first entry with the given key (Map.get). -/
def alGet {α : Type} : List (String × α) → String → Option α
  | [], _ => none
  | (k, v) :: rest, key => if k == key then some v else alGet rest key

/-- Association-list update (Map.set): replace the first entry with the key
in place, otherwise append at the end, matching JS Map insertion order. -/
def alSet {α : Type} : List (String × α) → String → α → List (String × α)
  | [], key, v => [(key, v)]
  | (k, w) :: rest, key, v =>
      if k == key then (key, v) :: rest else (k, w) :: alSet rest key v

/-- Association-list removal (Map.delete): drop the first entry with the key. -/
def alRemove {α : Type} : List (String × α) → String → List (String × α)
  | [], _ => []
  | (k, w) :: rest, key =>
      if k == key then rest else (k, w) :: alRemove rest key

/-- Membership test on the keys (Map.has). -/
def alHas {α : Type} (l : List (String × α)) (key : String) : Bool :=
  (alGet l key).isSome

theorem beq_false_of_ne {a b : String} (h : a ≠ b) : (a == b) = false := by
  simp only [beq_eq_false_iff_ne]
  exact h

theorem alGet_alSet_self {α : Type} (l : List (String × α)) (k : String) (v : α) :
    alGet (alSet l k v) k = some v := by
  induction l with
  | nil => simp [alSet, alGet]
  | cons p rest ih =>
      obtain ⟨k0, w⟩ := p
      by_cases h : k0 = k
      · simp [alSet, alGet, h]
      · simp [alSet, alGet, beq_false_of_ne h, ih]

theorem alGet_alSet_ne {α : Type} (l : List (String × α)) (k k' : String) (v : α)
    (h : k' ≠ k) : alGet (alSet l k v) k' = alGet l k' := by
  induction l with
  | nil => simp [alSet, alGet, beq_false_of_ne (Ne.symm h)]
  | cons p rest ih =>
      obtain ⟨k0, w⟩ := p
      by_cases h0 : k0 = k
      · subst h0
        simp [alSet, alGet, beq_false_of_ne (Ne.symm h)]
      · by_cases h1 : k0 = k'
        · subst h1
          simp [alSet, alGet, beq_false_of_ne h0]
        · simp [alSet, alGet, beq_false_of_ne h0, beq_false_of_ne h1, ih]

theorem alGet_eq_none_of_not_mem {α : Type} (l : List (String × α)) (k : String)
    (h : k ∉ l.map Prod.fst) : alGet l k = none := by
  induction l with
  | nil => simp [alGet]
  | cons p rest ih =>
      obtain ⟨k0, w⟩ := p
      simp only [List.map_cons, List.mem_cons] at h
      push_neg at h
      simp [alGet, beq_false_of_ne (Ne.symm h.1), ih h.2]

theorem keys_alSet {α : Type} (l : List (String × α)) (k : String) (v : α) :
    (alSet l k v).map Prod.fst =
      if alHas l k then l.map Prod.fst else l.map Prod.fst ++ [k] := by
  induction l with
  | nil => simp [alSet, alHas, alGet]
  | cons p rest ih =>
      obtain ⟨k0, w⟩ := p
      by_cases h : k0 = k
      · simp [alSet, alHas, alGet, h]
      · cases hg : alGet rest k with
        | none => simp [alSet, alHas, alGet, beq_false_of_ne h, ih, hg]
        | some x => simp [alSet, alHas, alGet, beq_false_of_ne h, ih, hg]

theorem alHas_iff_mem_keys {α : Type} (l : List (String × α)) (k : String) :
    alHas l k = true ↔ k ∈ l.map Prod.fst := by
  induction l with
  | nil => simp [alHas, alGet]
  | cons p rest ih =>
      obtain ⟨k0, w⟩ := p
      by_cases h : k0 = k
      · simp [alHas, alGet, h]
      · simp only [alHas] at ih
        simp [alHas, alGet, beq_false_of_ne h, ih, Ne.symm h]

theorem nodup_keys_alSet {α : Type} (l : List (String × α)) (k : String) (v : α)
    (h : (l.map Prod.fst).Nodup) : ((alSet l k v).map Prod.fst).Nodup := by
  rw [keys_alSet]
  by_cases hh : alHas l k
  · simpa [hh] using h
  · have hk : k ∉ l.map Prod.fst := fun hm => hh ((alHas_iff_mem_keys l k).mpr hm)
    simp only [hh, if_false]
    exact List.nodup_append.mpr ⟨h, List.nodup_singleton k, by simpa using hk⟩

theorem keys_filter_sublist {α : Type} (p : String × α → Bool) (l : List (String × α)) :
    ((l.filter p).map Prod.fst).Sublist (l.map Prod.fst) :=
  (List.filter_sublist l).map Prod.fst

theorem nodup_keys_filter {α : Type} (p : String × α → Bool) (l : List (String × α))
    (h : (l.map Prod.fst).Nodup) : ((l.filter p).map Prod.fst).Nodup :=
  (keys_filter_sublist p l).nodup h

theorem alGet_filter_of_nodup {α : Type} (p : String × α → Bool)
    (l : List (String × α)) (k : String) (v : α)
    (hnd : (l.map Prod.fst).Nodup) (h : alGet l k = some v) :
    alGet (l.filter p) k = if p (k, v) then some v else none := by
  induction l with
  | nil => simp [alGet] at h
  | cons q rest ih =>
      obtain ⟨k0, w⟩ := q
      simp only [List.map_cons, List.nodup_cons] at hnd
      by_cases h0 : k0 = k
      · subst h0
        simp only [alGet, beq_self_eq_true, if_true] at h
        have hwv : w = v := by simpa using h
        subst hwv
        by_cases hp : p (k0, w)
        · simp [List.filter_cons, hp, alGet]
        · have hnone : alGet (rest.filter p) k0 = none :=
            alGet_eq_none_of_not_mem _ _ (fun hm =>
              hnd.1 ((keys_filter_sublist p rest).mem hm))
          simp [List.filter_cons, hp, hnone]
      · simp only [alGet, beq_false_of_ne h0, if_false] at h
        by_cases hp : p (k0, w)
        · simp [List.filter_cons, hp, alGet, beq_false_of_ne h0, ih hnd.2 h]
        · simp [List.filter_cons, hp, ih hnd.2 h]

theorem alGet_alRemove_ne {α : Type} (l : List (String × α)) (k k' : String)
    (h : k' ≠ k) : alGet (alRemove l k) k' = alGet l k' := by
  induction l with
  | nil => simp [alRemove]
  | cons q rest ih =>
      obtain ⟨k0, w⟩ := q
      by_cases h0 : k0 = k
      · subst h0
        simp [alRemove, alGet, beq_false_of_ne (Ne.symm h)]
      · by_cases h1 : k0 = k'
        · subst h1
          simp [alRemove, alGet, beq_false_of_ne h0]
        · simp [alRemove, alGet, beq_false_of_ne h0, beq_false_of_ne h1, ih]

theorem alGet_alRemove_self {α : Type} (l : List (String × α)) (k : String)
    (hnd : (l.map Prod.fst).Nodup) : alGet (alRemove l k) k = none := by
  induction l with
  | nil => simp [alRemove, alGet]
  | cons q rest ih =>
      obtain ⟨k0, w⟩ := q
      simp only [List.map_cons, List.nodup_cons] at hnd
      by_cases h0 : k0 = k
      · subst h0
        simpa [alRemove] using alGet_eq_none_of_not_mem rest k0 hnd.1
      · simp [alRemove, alGet, beq_false_of_ne h0, ih hnd.2]

/-! ## Selection tracker (Document-Focus)

The currentSelection update logic is literally identical in all three server
variants; it is embedded once below. -/

/-- First split of the selection at the entry whose id matches the focused
document.  Models the findIndex call in handleDocumentFocus together with
the splice(docIndex, 1) removal: sel = pre ++ doc :: post with doc the first
entry whose id matches, and pre ++ post the list after splicing it out. -/
def findSplit (documentId : String) :
    List DocumentReference →
      Option (List DocumentReference × DocumentReference × List DocumentReference)
  | [] => none
  | doc :: rest =>
      if doc.id == documentId then some ([], doc, rest)
      else
        match findSplit documentId rest with
        | some (pre, x, post) => some (doc :: pre, x, post)
        | none => none

/-- The currentSelection update performed by handleDocumentFocus
(langGraphWebSocketServer.ts lines 479-516; identically in
websocketServer.ts lines 281-318 and the enhanced variant).  A new truthy id
is unshifted and the list clamped with slice(0, MAX_DOCUMENTS); an id that
is already present has its path and lastModified updated and is moved to the
front via splice + unshift. -/
def handleDocumentFocusSelection (sel : List DocumentReference)
    (documentId : String) (path : Option String) (now : String) :
    List DocumentReference :=
  let inSelection := sel.any (fun doc => doc.id == documentId)
  if !inSelection && !(documentId == "") then
    let sel1 : List DocumentReference :=
      { id := documentId, path := path, lastModified := some now } :: sel
    if sel1.length > MAX_DOCUMENTS then sel1.take MAX_DOCUMENTS else sel1
  else if inSelection then
    match findSplit documentId sel with
    | some (pre, doc, post) =>
        ({ doc with path := path, lastModified := some now }) :: (pre ++ post)
    | none => sel
  else sel

/-- One document_focus event as it reaches the selection update: the focused
id, the optional path, and the ISO timestamp taken at handling time. -/
structure FocusEvent where
  documentId : String
  path : Option String := none
  now : String := ""
  deriving DecidableEq, Repr

/-- The selection obtained by handling a sequence of document_focus events
starting from the initial empty selection. -/
def applyFocusEvents (evs : List FocusEvent) : List DocumentReference :=
  evs.foldl
    (fun sel e => handleDocumentFocusSelection sel e.documentId e.path e.now) []

theorem findSplit_of_any (d : String) (sel : List DocumentReference)
    (h : sel.any (fun doc => doc.id == d) = true) :
    ∃ pre doc post, findSplit d sel = some (pre, doc, post) ∧
      sel = pre ++ doc :: post ∧ (doc.id == d) = true ∧
      ∀ x ∈ pre, (x.id == d) = false := by
  induction sel with
  | nil => simp at h
  | cons doc0 rest ih =>
      by_cases h0 : (doc0.id == d) = true
      · exact ⟨[], doc0, rest, by simp [findSplit, h0], by simp, h0, by simp⟩
      · have hb : (doc0.id == d) = false := by
          cases hx : doc0.id == d
          · rfl
          · exact absurd hx h0
        have hrest : rest.any (fun doc => doc.id == d) = true := by
          simpa [hb] using h
        obtain ⟨pre, doc, post, hf, heq, hid, hpre⟩ := ih hrest
        refine ⟨doc0 :: pre, doc, post, ?_, by simp [heq], hid, ?_⟩
        · simp [findSplit, hb, hf]
        · intro x hx
          rcases List.mem_cons.mp hx with rfl | hx2
          · exact hb
          · exact hpre x hx2

theorem handleDocumentFocusSelection_length_le (sel : List DocumentReference)
    (d : String) (p : Option String) (t : String)
    (h : sel.length ≤ MAX_DOCUMENTS) :
    (handleDocumentFocusSelection sel d p t).length ≤ MAX_DOCUMENTS := by
  unfold handleDocumentFocusSelection
  by_cases hin : sel.any (fun doc => doc.id == d) = true
  · simp only [hin, Bool.not_true, Bool.false_and, Bool.false_eq_true, if_false, if_true]
    obtain ⟨pre, doc, post, hf, heq, _, _⟩ := findSplit_of_any d sel hin
    simp only [hf]
    have : sel.length = pre.length + post.length + 1 := by
      subst heq
      simp
      omega
    simp only [List.length_cons, List.length_append]
    omega
  · have hin' : sel.any (fun doc => doc.id == d) = false := by
      cases hx : sel.any (fun doc => doc.id == d)
      · rfl
      · exact absurd hx hin
    by_cases hd : (d == "") = true
    · simpa [hin', hd] using h
    · have hd' : (d == "") = false := by
        cases hx : d == ""
        · rfl
        · exact absurd hx hd
      simp only [hin', hd', Bool.not_false, Bool.true_and, Bool.false_eq_true, if_false]
      by_cases hlen : sel.length + 1 > MAX_DOCUMENTS
      · simp only [List.length_cons, hlen, if_true]
        simp [List.length_take]
      · simp only [hlen, ite_true, ite_false, if_false, List.length_cons]
        omega

theorem handleDocumentFocusSelection_full_evicts_last
    (sel : List DocumentReference) (d : String) (p : Option String) (t : String)
    (hlen : sel.length = MAX_DOCUMENTS)
    (hnew : sel.any (fun doc => doc.id == d) = false)
    (hd : (d == "") = false) :
    handleDocumentFocusSelection sel d p t =
      { id := d, path := p, lastModified := some t } :: sel.dropLast := by
  unfold handleDocumentFocusSelection
  have hgt :
      ({ id := d, path := p, lastModified := some t } :: sel :
        List DocumentReference).length > MAX_DOCUMENTS := by
    simp [hlen]
  simp only [hnew, hd, Bool.not_false, Bool.true_and, ite_true, Bool.false_eq_true,
    ite_false, if_true]
  rw [if_pos hgt]
  have h9 : MAX_DOCUMENTS = 9 + 1 := by decide
  rw [List.dropLast_eq_take, hlen, h9]
  simp [List.take_succ_cons]

theorem handleDocumentFocusSelection_nodup
    (sel : List DocumentReference) (d : String) (p : Option String) (t : String)
    (h : (sel.map (fun doc => doc.id)).Nodup) :
    ((handleDocumentFocusSelection sel d p t).map (fun doc => doc.id)).Nodup := by
  unfold handleDocumentFocusSelection
  by_cases hin : sel.any (fun doc => doc.id == d) = true
  · simp only [hin, Bool.not_true, Bool.false_and, Bool.false_eq_true, if_false, if_true]
    obtain ⟨pre, doc, post, hf, heq, hid, _⟩ := findSplit_of_any d sel hin
    simp only [hf]
    subst heq
    have hmid := (@List.nodup_middle String doc.id (pre.map (fun x => x.id))
      (post.map (fun x => x.id))).mp (by simpa using h)
    simpa using hmid
  · have hin' : sel.any (fun doc => doc.id == d) = false := by
      cases hx : sel.any (fun doc => doc.id == d)
      · rfl
      · exact absurd hx hin
    have hnotmem : d ∉ sel.map (fun doc => doc.id) := by
      intro hm
      obtain ⟨doc, hdoc, hdid⟩ := List.mem_map.mp hm
      have : sel.any (fun doc => doc.id == d) = true :=
        List.any_eq_true.mpr ⟨doc, hdoc, by simp [hdid]⟩
      simp [this] at hin'
    have hcons :
        ((({ id := d, path := p, lastModified := some t } : DocumentReference) ::
          sel).map (fun doc => doc.id)).Nodup := by
      simp only [List.map_cons]
      exact List.nodup_cons.mpr ⟨hnotmem, h⟩
    by_cases hd : (d == "") = true
    · simpa [hin', hd] using h
    · have hd' : (d == "") = false := by
        cases hx : d == ""
        · rfl
        · exact absurd hx hd
      simp only [hin', hd', Bool.not_false, Bool.true_and, Bool.false_eq_true,
        ite_false, if_true]
      by_cases hlen :
          (({ id := d, path := p, lastModified := some t } : DocumentReference) ::
            sel).length > MAX_DOCUMENTS
      · rw [if_pos hlen]
        exact ((List.take_sublist _ _).map
          (fun doc : DocumentReference => doc.id)).nodup hcons
      · rw [if_neg hlen]
        exact hcons

theorem applyFocusEvents_length_le (evs : List FocusEvent) :
    ∀ sel : List DocumentReference, sel.length ≤ MAX_DOCUMENTS →
      ((evs.foldl
        (fun sel e => handleDocumentFocusSelection sel e.documentId e.path e.now)
        sel).length) ≤ MAX_DOCUMENTS := by
  induction evs with
  | nil => intro sel h; simpa using h
  | cons e rest ih =>
      intro sel h
      exact ih _ (handleDocumentFocusSelection_length_le sel e.documentId e.path e.now h)

theorem applyFocusEvents_nodup (evs : List FocusEvent) :
    ∀ sel : List DocumentReference, (sel.map (fun doc => doc.id)).Nodup →
      (((evs.foldl
        (fun sel e => handleDocumentFocusSelection sel e.documentId e.path e.now)
        sel)).map (fun doc => doc.id)).Nodup := by
  induction evs with
  | nil => intro sel h; simpa using h
  | cons e rest ih =>
      intro sel h
      exact ih _ (handleDocumentFocusSelection_nodup sel e.documentId e.path e.now h)

/-- C2: for every sequence of document_focus events applied from the initial
empty state, the Selection never holds more than MAX_DOCUMENTS (10) entries,
and when a new distinct (truthy) id arrives while the Selection is full, the
handler unshifts the new entry and evicts exactly the last (oldest) entry of
the previous Selection. -/
theorem selection_cap_and_oldest_evicted :
    (∀ evs : List FocusEvent,
      (applyFocusEvents evs).length ≤ MAX_DOCUMENTS) ∧
    (∀ (sel : List DocumentReference) (d : String) (p : Option String) (t : String),
      sel.length = MAX_DOCUMENTS →
      sel.any (fun doc => doc.id == d) = false →
      (d == "") = false →
      handleDocumentFocusSelection sel d p t =
        { id := d, path := p, lastModified := some t } :: sel.dropLast) := by
  constructor
  · intro evs
    exact applyFocusEvents_length_le evs [] (by simp)
  · intro sel d p t hlen hnew hd
    exact handleDocumentFocusSelection_full_evicts_last sel d p t hlen hnew hd

/-- Concrete ten-document selection used by the witnesses. -/
def selTen : List DocumentReference :=
  (List.range MAX_DOCUMENTS).map (fun i => { id := "doc" ++ toString i })

/-- Witness for selection_cap_and_oldest_evicted: a full selection of ten
distinct documents evicts exactly its last entry when an eleventh distinct
id arrives. -/
theorem selection_cap_and_oldest_evicted_witness :
    (applyFocusEvents [{ documentId := "a", path := none, now := "t0" }]).length ≤
        MAX_DOCUMENTS ∧
      handleDocumentFocusSelection selTen "newdoc" none "t1" =
        { id := "newdoc", path := none, lastModified := some "t1" } :: selTen.dropLast :=
  ⟨selection_cap_and_oldest_evicted.1 [{ documentId := "a", path := none, now := "t0" }],
    selection_cap_and_oldest_evicted.2 selTen "newdoc" none "t1"
      (by decide) (by decide) (by decide)⟩

/-- C3: focusing a document id that is already present in the Selection
updates that entry with the new path and lastModified timestamp, moves it to
index 0, leaves the relative order of all other entries unchanged (the tail
is the original list with the entry spliced out), and keeps the length
unchanged. -/
theorem selection_move_to_front (sel : List DocumentReference) (d : String)
    (p : Option String) (t : String)
    (h : sel.any (fun doc => doc.id == d) = true) :
    ∃ pre doc post,
      sel = pre ++ doc :: post ∧ (doc.id == d) = true ∧
      (∀ x ∈ pre, (x.id == d) = false) ∧
      handleDocumentFocusSelection sel d p t =
        ({ doc with path := p, lastModified := some t }) :: (pre ++ post) ∧
      (handleDocumentFocusSelection sel d p t).length = sel.length := by
  obtain ⟨pre, doc, post, hf, heq, hid, hpre⟩ := findSplit_of_any d sel h
  refine ⟨pre, doc, post, heq, hid, hpre, ?_, ?_⟩
  · unfold handleDocumentFocusSelection
    simp only [h, Bool.not_true, Bool.false_and, Bool.false_eq_true, if_false, if_true, hf]
  · unfold handleDocumentFocusSelection
    simp only [h, Bool.not_true, Bool.false_and, Bool.false_eq_true, if_false, if_true, hf]
    subst heq
    simp
    omega

/-- Witness for selection_move_to_front on a concrete two-document selection. -/
theorem selection_move_to_front_witness :
    ∃ pre doc post,
      ([{ id := "a" }, { id := "b" }] : List DocumentReference) = pre ++ doc :: post ∧
      (doc.id == "b") = true ∧
      (∀ x ∈ pre, (x.id == "b") = false) ∧
      handleDocumentFocusSelection [{ id := "a" }, { id := "b" }] "b" (some "f") "t2" =
        ({ doc with path := some "f", lastModified := some "t2" }) :: (pre ++ post) ∧
      (handleDocumentFocusSelection [{ id := "a" }, { id := "b" }] "b"
          (some "f") "t2").length =
        ([{ id := "a" }, { id := "b" }] : List DocumentReference).length :=
  selection_move_to_front [{ id := "a" }, { id := "b" }] "b" (some "f") "t2" (by decide)

/-- C10: the document ids of the Selection are pairwise distinct in the
initial state and after every sequence of document_focus events: the handler
inserts an id only when absent and otherwise relocates the existing entry,
so no event sequence can produce duplicate ids. -/
theorem selection_ids_pairwise_distinct :
    ∀ evs : List FocusEvent,
      ((applyFocusEvents evs).map (fun doc => doc.id)).Nodup := by
  intro evs
  exact applyFocusEvents_nodup evs [] (by simp)

/-! ## Session store and expiry sweep -/

/-- SessionState as stored by the LangGraph server session store: the opaque
agent snapshot plus bookkeeping (interface SessionState; Date values are Int
milliseconds). -/
structure SessionState where
  agentState : SanityAgentState
  lastClientId : Option String := none
  createdAt : Int := 0
  lastActive : Int := 0
  deriving DecidableEq, Repr

/-- The keep test applied by cleanupExpiredSessions to one stored session: a
session survives the sweep iff its age measured from lastActive does not
exceed SESSION_EXPIRY.  createdAt is not consulted. -/
def sessionFresh (now : Int) (s : SessionState) : Bool :=
  !(decide (now - s.lastActive > SESSION_EXPIRY))

/-- cleanupExpiredSessions (langGraphWebSocketServer.ts lines 664-680): delete
every session whose age now - lastActive exceeds SESSION_EXPIRY. -/
def cleanupExpiredSessions (now : Int)
    (sessions : List (String × SessionState)) : List (String × SessionState) :=
  sessions.filter (fun p => sessionFresh now p.2)

/-- C5: a session present in the store before a sweep is absent from lookup
after the sweep exactly when its age, measured from lastActiveAt, exceeds the
expiry window; the keep decision never depends on createdAt. -/
theorem session_expiry_sweep (store : List (String × SessionState))
    (k : String) (s : SessionState) (now : Int)
    (hnd : (store.map Prod.fst).Nodup) (h : alGet store k = some s) :
    alGet store k = some s ∧
    (alGet (cleanupExpiredSessions now store) k = none ↔
      now - s.lastActive > SESSION_EXPIRY) ∧
    (∀ t : Int, sessionFresh now { s with createdAt := t } = sessionFresh now s) := by
  refine ⟨h, ?_, fun t => rfl⟩
  have hf := alGet_filter_of_nodup (fun p => sessionFresh now p.2) store k s hnd h
  rw [cleanupExpiredSessions, hf]
  by_cases hfresh : sessionFresh now s = true
  · simp only [hfresh, if_true]
    constructor
    · intro hcontra
      exact absurd hcontra (by simp)
    · intro hage
      exfalso
      simp only [sessionFresh] at hfresh
      simp [hage] at hfresh
  · have hfresh' : sessionFresh now s = false := by
      cases hx : sessionFresh now s
      · rfl
      · exact absurd hx hfresh
    simp only [hfresh', Bool.false_eq_true, if_false, true_iff]
    simp only [sessionFresh] at hfresh'
    simpa using hfresh'

/-- Concrete session store for the witness: one stale and one fresh session. -/
def demoStore : List (String × SessionState) :=
  [("old", { agentState := { token := 1 }, lastActive := 0 }),
   ("fresh", { agentState := { token := 2 }, lastActive := 4000000 })]

/-- Witness for session_expiry_sweep: at time 4000001 the session last active
at time 0 is swept (age above one hour) while it was still found before. -/
theorem session_expiry_sweep_witness :
    alGet demoStore "old" =
        some { agentState := { token := 1 }, lastActive := 0 } ∧
      (alGet (cleanupExpiredSessions 4000001 demoStore) "old" = none ↔
        (4000001 : Int) - 0 > SESSION_EXPIRY) ∧
      (∀ t : Int,
        sessionFresh 4000001
            { agentState := { token := 1 }, lastActive := 0, createdAt := t } =
          sessionFresh 4000001 { agentState := { token := 1 }, lastActive := 0 }) :=
  session_expiry_sweep demoStore "old"
    { agentState := { token := 1 }, lastActive := 0 } 4000001
    (by decide) (by decide)

/-! ## Regex tests used by the servers

The servers test inbound strings against a handful of JS regexes (all with
the i flag).  The helpers below give a direct decidable semantics: lowercase
folding models the i flag, the dot excludes the JS line terminators, and the
whitespace class covers the usual ASCII whitespace plus NBSP. -/

/-- Lowercased character list of a string (models the i regex flag). -/
def lowerChars (s : String) : List Char := s.toList.map Char.toLower

/-- Consume an exact literal at the head of the input. -/
def dropLit : List Char → List Char → Option (List Char)
  | s, [] => some s
  | [], _ :: _ => none
  | c :: s, d :: l => if c == d then dropLit s l else none

/-- Whitespace class of the regex escape for whitespace. -/
def isWsChar (c : Char) : Bool :=
  c == ' ' || c == '\t' || c == '\n' || c == '\r' ||
  c == Char.ofNat 11 || c == Char.ofNat 12 || c == Char.ofNat 160

/-- Consume every further whitespace character. -/
def dropWsMany : List Char → List Char
  | [] => []
  | c :: s => if isWsChar c then dropWsMany s else c :: s

/-- Consume at least one whitespace character (the regex one-or-more
whitespace item; the following literals all start with non-whitespace, so
maximal munch is exact). -/
def dropWs1 : List Char → Option (List Char)
  | [] => none
  | c :: s => if isWsChar c then some (dropWsMany s) else none

/-- Dot of a JS regex: any character except the line terminators. -/
def isDotChar (c : Char) : Bool :=
  !(c == '\n' || c == '\r' || c == Char.ofNat 0x2028 || c == Char.ofNat 0x2029)

/-- Match DOT-STAR followed by the literal, starting at the current position. -/
def dotStarThen (lit : List Char) : List Char → Bool
  | [] => (dropLit [] lit).isSome
  | c :: rest =>
      (dropLit (c :: rest) lit).isSome || (isDotChar c && dotStarThen lit rest)

/-- Unanchored search: does the predicate hold at some suffix? -/
def anySuffix (p : List Char → Bool) : List Char → Bool
  | [] => p []
  | c :: rest => p (c :: rest) || anySuffix p rest

/-- Unanchored test for LIT1 DOT-STAR LIT2 on case-folded input. -/
def seqTest (a b : List Char) (s : List Char) : Bool :=
  anySuffix
    (fun l =>
      match dropLit l a with
      | some r => dotStarThen b r
      | none => false) s

/-- Unanchored substring test on case-folded input. -/
def subTest (a : List Char) (s : List Char) : Bool :=
  anySuffix (fun l => (dropLit l a).isSome) s

/-! ## Error classification (src/utils/errorHandler.ts) -/

/-- A JS error as seen by the error handler after normalizeError: its code,
its message, and the recoverable flag carried by AppError subclasses. -/
structure JsError where
  code : String := "UNKNOWN_ERROR"
  message : String := ""
  recoverable : Bool := false
  deriving DecidableEq, Repr

/-- Codes treated as recoverable by isRecoverableConnectionError
(errorHandler.ts lines 160-169). -/
def recoverableCodes : List String :=
  ["ECONNRESET", "ECONNREFUSED", "ETIMEDOUT", "EPIPE", "ENOTFOUND",
   "NETWORK_ERROR", "CONNECTION_ERROR"]

/-- isRecoverableConnectionError (errorHandler.ts lines 157-191): recoverable
when the code is in the list, or the error is explicitly flagged recoverable,
or the message matches one of the known transient patterns. -/
def isRecoverableConnectionError (e : JsError) : Bool :=
  recoverableCodes.contains e.code ||
  e.recoverable ||
  (let m := lowerChars e.message
   seqTest "connection".toList "refused".toList m ||
   seqTest "network".toList "error".toList m ||
   subTest "timeout".toList m ||
   seqTest "temporarily".toList "unavailable".toList m ||
   seqTest "refused".toList "connect".toList m ||
   subTest "econnreset".toList m)

/-! ## The LangGraph WebSocket server (namespace LG)

Embeds class LangGraphWebSocketServer of
src/server/langGraphWebSocketServer.ts. -/

/-- External inputs consumed while handling one event: the clock, its ISO
rendering, the agent snapshots returned by agent.getState before and after
the generate call, and the outcome of agent.generate (ok on resolve, error
on throw or reject). -/
structure Env where
  nowMs : Int := 0
  nowIso : String := ""
  snapBefore : SanityAgentState := { token := 0 }
  snapAfter : SanityAgentState := { token := 0 }
  genResult : Except Unit String := .ok ""

/-- User focus of the LangGraph server state (WebSocketState.userFocus). -/
structure LG.UserFocus where
  documentId : Option String := none
  path : Option String := none
  lastUpdated : Option String := none
  deriving DecidableEq, Repr

/-- WebSocketState of the LangGraph server (lines 23-40). -/
structure LG.WebSocketState where
  currentSelection : List DocumentReference := []
  userFocus : LG.UserFocus := {}
  session : SessionMeta
  deriving DecidableEq, Repr

/-- Whole mutable state of one LangGraphWebSocketServer instance: clients
registry, session store, WebSocket-level agentState, and the internal state
of the wrapped agent (read by getState, replaced by setState). -/
structure LG.ServerState where
  clients : List (String × Client) := []
  sessions : List (String × SessionState) := []
  agentState : LG.WebSocketState
  agentInternal : SanityAgentState := { token := 0 }
  deriving DecidableEq, Repr

/-- sendToClient (lines 578-601): the frame is delivered only when the client
is registered and its socket is open. -/
def LG.sendToClient (st : LG.ServerState) (clientId : String) (f : Frame) :
    List (String × Frame) :=
  match alGet st.clients clientId with
  | none => []
  | some c => if c.readyStateOpen then [(clientId, f)] else []

/-- broadcast (lines 607-613): send to every registered client whose socket
is open. -/
def LG.broadcast (st : LG.ServerState) (f : Frame) : List (String × Frame) :=
  (st.clients.filter (fun p => p.2.readyStateOpen)).map (fun p => (p.1, f))

/-- preserveSessionState (lines 642-659): store the current agent snapshot
under the session id, then opportunistically sweep expired sessions. -/
def LG.preserveSessionState (now : Int) (snap : SanityAgentState)
    (sessions : List (String × SessionState)) (clientId sessionId : String) :
    List (String × SessionState) :=
  cleanupExpiredSessions now
    (alSet sessions sessionId
      { agentState := snap, lastClientId := some clientId,
        createdAt := now, lastActive := now })

/-- handleReconnection (lines 687-738).  Unknown session: reply with an error
frame carrying code SESSION_NOT_FOUND and change nothing.  Known session:
attach the session id to the client, restore the stored snapshot into the
agent via setState, refresh the session bookkeeping, and confirm with a
document_set_update whose session object carries reconnected: true. -/
def LG.handleReconnection (env : Env) (st : LG.ServerState)
    (clientId sessionId : String) : LG.ServerState × List (String × Frame) :=
  match alGet st.sessions sessionId with
  | none =>
      (st, LG.sendToClient st clientId
        { type := .error,
          payload := { message := some "Session not found or expired",
                       code := some "SESSION_NOT_FOUND" } })
  | some session =>
      match alGet st.clients clientId with
      | none => (st, [])
      | some client =>
          let session' :=
            { session with lastActive := env.nowMs, lastClientId := some clientId }
          let st' : LG.ServerState :=
            { clients :=
                alSet st.clients clientId { client with sessionId := some sessionId }
              sessions := alSet st.sessions sessionId session'
              agentState := st.agentState
              agentInternal := session.agentState }
          (st', LG.sendToClient st' clientId
            { type := .document_set_update,
              payload :=
                { documents := some (docViews st.agentState.currentSelection),
                  session := some
                    { id := sessionId,
                      reconnected := some true,
                      startedAt := some (toIso session.createdAt),
                      lastActivity := toIso env.nowMs } } })

/-- attemptClientRecovery (lines 745-787): increment the attempt counter on
the stored client; past MAX_RECONNECT_ATTEMPTS the socket is terminated and
the client removed from the registry; otherwise an error frame asking the
client to reconnect is written directly to the socket when it is open.  No
delay hint is attached and the session store is not touched. -/
def LG.attemptClientRecovery (st : LG.ServerState) (clientId : String) :
    LG.ServerState × List (String × Frame) :=
  match alGet st.clients clientId with
  | none => (st, [])
  | some client =>
      let attempts := client.reconnectAttempts + 1
      if attempts > MAX_RECONNECT_ATTEMPTS then
        ({ st with clients := alRemove st.clients clientId }, [])
      else
        let clients' :=
          alSet st.clients clientId { client with reconnectAttempts := attempts }
        let frames : List (String × Frame) :=
          if client.readyStateOpen then
            [(clientId,
              { type := .error,
                payload := { message := some "Connection error, please reconnect",
                             code := some "CONNECTION_ERROR",
                             reconnect := some true,
                             sessionId := client.sessionId } })]
          else []
        ({ st with clients := clients' }, frames)

/-- The socket error handler (lines 309-317): recoverable errors trigger
attemptClientRecovery, everything else is only logged. -/
def LG.onSocketError (st : LG.ServerState) (clientId : String) (e : JsError) :
    LG.ServerState × List (String × Frame) :=
  if isRecoverableConnectionError e then LG.attemptClientRecovery st clientId
  else (st, [])

/-- One heartbeat tick (setupHeartbeat, lines 792-819) together with the
close handler (lines 288-306) that the terminate call fires: a client that
missed its pong is terminated, its session preserved when it has one, and
its registry entry removed; every surviving client is marked not-alive and
sent a ping frame. -/
def LG.heartbeatTick (now : Int) (snap : SanityAgentState) (st : LG.ServerState) :
    LG.ServerState × List (String × Frame) :=
  let dead := st.clients.filter (fun p => !p.2.isAlive)
  let clients' := (st.clients.filter (fun p => p.2.isAlive)).map
    (fun p => (p.1, { p.2 with isAlive := false }))
  let sessions' := dead.foldl
    (fun acc p =>
      match p.2.sessionId with
      | some sid => LG.preserveSessionState now snap acc p.1 sid
      | none => acc)
    st.sessions
  ({ st with clients := clients', sessions := sessions' },
   clients'.map (fun p =>
     (p.1, { type := .ping, payload := { timestampMs := some now } })))

/-- The pong branch of the message handler (lines 252-255) together with the
shared lastActive refresh (line 245): mark the client alive. -/
def LG.receivePong (now : Int) (clients : List (String × Client))
    (clientId : String) : List (String × Client) :=
  match alGet clients clientId with
  | some c => alSet clients clientId { c with lastActive := now, isAlive := true }
  | none => clients

/-- handleUserMessage (lines 365-450): mint a session id on the first user
message of a connection, refresh lastActivity, preserve the session, emit the
thinking_state frame, run agent.generate, and on success emit the
agent_message correlated by requestId and preserve again; on a generate
failure reply with an error frame and keep everything registered. -/
def LG.handleUserMessage (env : Env) (st : LG.ServerState) (clientId : String)
    (content : String) (requestId : Option String) :
    LG.ServerState × List (String × Frame) :=
  let client? := alGet st.clients clientId
  let minted := "session-" ++ toString env.nowMs
  let needMint :=
    match client? with
    | some c => c.sessionId.isNone
    | none => false
  let clients1 :=
    if needMint then
      match client? with
      | some c => alSet st.clients clientId { c with sessionId := some minted }
      | none => st.clients
    else st.clients
  let agentState1 :=
    if needMint then
      { st.agentState with
          session := { id := minted, startedAt := env.nowIso, lastActivity := env.nowIso } }
    else st.agentState
  let sid? : Option String :=
    match client? with
    | some c =>
        match c.sessionId with
        | some s => some s
        | none => some minted
    | none => none
  let agentState2 :=
    { agentState1 with
        session := { agentState1.session with lastActivity := env.nowIso } }
  let sessions1 :=
    match sid? with
    | some sid =>
        LG.preserveSessionState env.nowMs env.snapBefore st.sessions clientId sid
    | none => st.sessions
  let st1 : LG.ServerState :=
    { st with clients := clients1, sessions := sessions1, agentState := agentState2 }
  let out1 := LG.sendToClient st1 clientId
    { type := .thinking_state, payload := { state := some "processing" },
      requestId := requestId }
  match env.genResult with
  | .ok response =>
      let out2 := LG.sendToClient st1 clientId
        { type := .agent_message,
          payload := { message := some response, timestamp := some env.nowIso },
          requestId := requestId }
      let agentState3 :=
        { agentState2 with
            session := { agentState2.session with lastActivity := env.nowIso } }
      let sessions2 :=
        match sid? with
        | some sid =>
            LG.preserveSessionState env.nowMs env.snapAfter sessions1 clientId sid
        | none => sessions1
      ({ st1 with agentState := agentState3, sessions := sessions2 }, out1 ++ out2)
  | .error _ =>
      let out2 := LG.sendToClient st1 clientId
        { type := .error,
          payload := { message := some "Failed to process your message" },
          requestId := requestId }
      (st1, out1 ++ out2)

/-- handleDocumentFocus (lines 458-532) at the server level: overwrite the
singleton userFocus, broadcast the analyzing thinking_state, update the
selection (handleDocumentFocusSelection), broadcast the updated document set
when a selection branch ran (the session object is serialised before
lastActivity is refreshed), refresh session.lastActivity, and append the
delayed (1.5 s, fire-and-forget) completed thinking_state broadcast last. -/
def LG.handleDocumentFocus (env : Env) (st : LG.ServerState)
    (documentId : String) (path : Option String) :
    LG.ServerState × List (String × Frame) :=
  let userFocus' : LG.UserFocus :=
    { documentId := some documentId, path := path, lastUpdated := some env.nowIso }
  let out1 := LG.broadcast st
    { type := .thinking_state,
      payload := { documentId := some documentId,
                   action := some "analyzing_document",
                   message := some ("Processing document: " ++ documentId) } }
  let sel := st.agentState.currentSelection
  let inSelection := sel.any (fun doc => doc.id == documentId)
  let sel' := handleDocumentFocusSelection sel documentId path env.nowIso
  let didUpdate := (!inSelection && !(documentId == "")) || inSelection
  let out2 :=
    if didUpdate then
      LG.broadcast st
        { type := .document_set_update,
          payload :=
            { documents := some (docViews sel')
              session := some
                { id := st.agentState.session.id,
                  startedAt := some st.agentState.session.startedAt,
                  lastActivity := st.agentState.session.lastActivity } } }
    else []
  let agentState' : LG.WebSocketState :=
    { currentSelection := sel', userFocus := userFocus',
      session := { st.agentState.session with lastActivity := env.nowIso } }
  let st' := { st with agentState := agentState' }
  let out3 := LG.broadcast st'
    { type := .thinking_state,
      payload := { documentId := some documentId,
                   action := some "completed",
                   message := some ("Finished processing document: " ++ documentId) } }
  (st', out1 ++ out2 ++ out3)

/-- handleClientMessage (lines 326-357): dispatch by frame type; any type
other than user_message and document_focus gets the unsupported-type error
reply. -/
def LG.handleClientMessage (env : Env) (st : LG.ServerState) (clientId : String)
    (m : WSMessage) : LG.ServerState × List (String × Frame) :=
  match m.type with
  | .user_message =>
      LG.handleUserMessage env st clientId (m.payload.content.getD "") m.requestId
  | .document_focus =>
      LG.handleDocumentFocus env st (m.payload.documentId.getD "") m.payload.path
  | _ =>
      (st, LG.sendToClient st clientId
        { type := .error,
          payload :=
            { message := some ("Unsupported message type: " ++ messageTypeStr m.type) },
          requestId := m.requestId })

/-- The message event handler (lines 239-285).  A frame that fails JSON
parsing (parsed = none) is answered through the tryCatch onError callback
with a generic error frame (code taken from the SyntaxError raised by
JSON.parse) and nothing else happens.  A parsed frame from a registered
client refreshes lastActive and dispatches on its type: reconnect frames
with a session id, pong frames, and everything else via handleClientMessage. -/
def LG.onMessage (env : Env) (st : LG.ServerState) (clientId : String)
    (parsed : Option WSMessage) : LG.ServerState × List (String × Frame) :=
  match parsed with
  | none =>
      (st, LG.sendToClient st clientId
        { type := .error,
          payload := { message := some "Failed to process your message",
                       code := some "SYNTAXERROR" } })
  | some m =>
      match alGet st.clients clientId with
      | none => (st, [])
      | some c =>
          let clients0 := alSet st.clients clientId { c with lastActive := env.nowMs }
          let st1 : LG.ServerState := { st with clients := clients0 }
          if m.type == .reconnect && m.sessionId.isSome then
            LG.handleReconnection env st1 clientId (m.sessionId.getD "")
          else if m.type == .pong then
            ({ st1 with clients := LG.receivePong env.nowMs st.clients clientId }, [])
          else
            LG.handleClientMessage env st1 clientId m

/-! ## The plain Mastra WebSocket server (namespace WS)

Embeds class MCPWebSocketServer of src/server/websocketServer.ts. -/

/-- Branch 1 of the what-am-I-looking-at regex: the literal what, whitespace,
one of (am ws i | are ws we | is ws this), whitespace, looking, whitespace,
at. -/
def waBranch1 (s : List Char) : Bool :=
  (do
    let s1 ← dropLit s "what".toList
    let s2 ← dropWs1 s1
    let s3 ←
      (do
        let t ← dropLit s2 "am".toList
        let t2 ← dropWs1 t
        dropLit t2 "i".toList) <|>
      (do
        let t ← dropLit s2 "are".toList
        let t2 ← dropWs1 t
        dropLit t2 "we".toList) <|>
      (do
        let t ← dropLit s2 "is".toList
        let t2 ← dropWs1 t
        dropLit t2 "this".toList)
    let s4 ← dropWs1 s3
    let s5 ← dropLit s4 "looking".toList
    let s6 ← dropWs1 s5
    dropLit s6 "at".toList).isSome

/-- Branch 2: what, any characters, document. -/
def waBranch2 (s : List Char) : Bool :=
  match dropLit s "what".toList with
  | some r => dotStarThen "document".toList r
  | none => false

/-- Branch 3: show, any characters, document. -/
def waBranch3 (s : List Char) : Bool :=
  match dropLit s "show".toList with
  | some r => dotStarThen "document".toList r
  | none => false

/-- Branch 4: current, whitespace, document. -/
def waBranch4 (s : List Char) : Bool :=
  (do
    let s1 ← dropLit s "current".toList
    let s2 ← dropWs1 s1
    dropLit s2 "document".toList).isSome

/-- The what-am-I-looking-at test of the plain Mastra server
(websocketServer.ts line 182): case-insensitive unanchored search for one of
the four regex branches. -/
def whatAmILookingAtPattern (s : String) : Bool :=
  anySuffix (fun l => waBranch1 l || waBranch2 l || waBranch3 l || waBranch4 l)
    (lowerChars s)

/-- User focus of the plain Mastra server (MCPAgentState.userFocus),
including the lastQueryAnswered marker. -/
structure WS.UserFocus where
  documentId : Option String := none
  path : Option String := none
  lastUpdated : Option String := none
  lastQueryAnswered : Option String := none
  deriving DecidableEq, Repr

/-- MCPAgentState of the plain Mastra server (websocketServer.ts lines 14-32). -/
structure WS.MCPAgentState where
  currentSelection : List DocumentReference := []
  userFocus : WS.UserFocus := {}
  session : SessionMeta
  deriving DecidableEq, Repr

/-- Client record of the plain Mastra server: only the socket. -/
structure WS.Client where
  readyStateOpen : Bool := true
  deriving DecidableEq, Repr

/-- sendToClient of the plain server (lines 353-360). -/
def WS.sendToClient (clients : List (String × WS.Client)) (clientId : String)
    (f : Frame) : List (String × Frame) :=
  match alGet clients clientId with
  | none => []
  | some c => if c.readyStateOpen then [(clientId, f)] else []

/-- Reply sent when no document is focused (lines 186-195). -/
def WS.noFocusReply : String :=
  "You don" ++ apos ++
    "t have any document focused at the moment. Please select a document in the Sanity Studio to view its details."

/-- Reply sent when the focused id is absent from the Selection
(lines 202-212). -/
def WS.notInSelectionReply (fid : String) : String :=
  "You were looking at document ID: " ++ fid ++ ", but I couldn" ++ apos ++
    "t retrieve its details. Please try selecting the document again."

/-- Reply describing the focused document (lines 214-222); title and type
fall back following JS truthiness. -/
def WS.lookingAtReply (doc : DocumentReference) : String :=
  "You are currently looking at \"" ++
    (if truthy doc.title then doc.title.getD doc.id else doc.id) ++
    "\" (ID: " ++ doc.id ++ ").\nThis is " ++
    (match doc.type with
     | some t => if t == "" then "a document" else "a " ++ t ++ " document"
     | none => "a document") ++
    ". To see more details, I can analyze its content for you."

/-- handleUserMessage of the plain Mastra server (lines 179-258).  A content
matching the what-am-I-looking-at pattern is answered directly from local
state without consulting the agent: nothing focused, focused id absent from
the Selection, or focused document found (which also marks
lastQueryAnswered).  Any other content emits the thinking_state frame, runs
agent.generate, and emits the agent_message, or the error reply when
generate throws.  The Bool result records whether agent.generate was
invoked. -/
def WS.handleUserMessage (st : WS.MCPAgentState)
    (clients : List (String × WS.Client)) (clientId : String) (content : String)
    (requestId : Option String) (gen : String → Except String String) :
    WS.MCPAgentState × List (String × Frame) × Bool :=
  if whatAmILookingAtPattern content then
    if !(truthy st.userFocus.documentId) then
      (st,
       WS.sendToClient clients clientId
         { type := .agent_message,
           payload := { content := some WS.noFocusReply },
           requestId := requestId },
       false)
    else
      let fid := st.userFocus.documentId.getD ""
      match st.currentSelection.find? (fun doc => doc.id == fid) with
      | none =>
          (st,
           WS.sendToClient clients clientId
             { type := .agent_message,
               payload := { content := some (WS.notInSelectionReply fid) },
               requestId := requestId },
           false)
      | some focusedDoc =>
          ({ st with userFocus :=
              { st.userFocus with lastQueryAnswered := some "what_am_i_looking_at" } },
           WS.sendToClient clients clientId
             { type := .agent_message,
               payload := { content := some (WS.lookingAtReply focusedDoc),
                            documentId := some focusedDoc.id },
               requestId := requestId },
           false)
  else
    let out1 := WS.sendToClient clients clientId
      { type := .thinking_state,
        payload := { action := some "processing",
                     message := some "Processing your message..." } }
    match gen content with
    | .ok text =>
        (st,
         out1 ++ WS.sendToClient clients clientId
           { type := .agent_message, payload := { content := some text },
             requestId := requestId },
         true)
    | .error emsg =>
        (st,
         out1 ++ WS.sendToClient clients clientId
           { type := .error,
             payload := { message := some ("Failed to process your message. " ++
               (if emsg == "" then "Unknown error" else emsg)) },
             requestId := requestId },
         true)

/-! ## The enhanced Mastra WebSocket server (namespace MCPE)

Embeds the session-aware class MCPWebSocketServer shipped in the repository
next to the LangGraph server (unnamed source file): same wire protocol, but
its session store keeps full copies of the MCPAgentState and its
handleReconnection falls back to a freshly minted session. -/

/-- User focus of the enhanced Mastra server (lines 23-29). -/
structure MCPE.UserFocus where
  documentId : Option String := none
  path : Option String := none
  lastUpdated : Option String := none
  lastQueryAnswered : Option String := none
  deriving DecidableEq, Repr

/-- MCPAgentState of the enhanced Mastra server (lines 19-37). -/
structure MCPE.MCPAgentState where
  currentSelection : List DocumentReference := []
  userFocus : MCPE.UserFocus := {}
  session : SessionMeta
  deriving DecidableEq, Repr

/-- Session store entry of the enhanced Mastra server (lines 79-84): a full
copy of the MCPAgentState rather than an opaque agent snapshot. -/
structure MCPE.SessionState where
  agentState : MCPE.MCPAgentState
  lastClientId : Option String := none
  createdAt : Int := 0
  lastActive : Int := 0
  deriving DecidableEq, Repr

/-- Whole mutable state of one enhanced MCPWebSocketServer instance. -/
structure MCPE.ServerState where
  clients : List (String × Client) := []
  sessions : List (String × MCPE.SessionState) := []
  agentState : MCPE.MCPAgentState
  deriving DecidableEq, Repr

/-- sendToClient of the enhanced server (lines 494-501). -/
def MCPE.sendToClient (st : MCPE.ServerState) (clientId : String) (f : Frame) :
    List (String × Frame) :=
  match alGet st.clients clientId with
  | none => []
  | some c => if c.readyStateOpen then [(clientId, f)] else []

/-- sendAgentState (lines 459-492): always send a document_set_update with
the (possibly empty) document list and session info, preferring the client
session id with a fresh lastActivity over the process-wide session record. -/
def MCPE.sendAgentState (env : Env) (st : MCPE.ServerState) (clientId : String) :
    List (String × Frame) :=
  let sessionInfo : SessionInfo :=
    match alGet st.clients clientId with
    | some c =>
        match c.sessionId with
        | some sid => { id := sid, lastActivity := env.nowIso }
        | none =>
            { id := st.agentState.session.id,
              startedAt := some st.agentState.session.startedAt,
              lastActivity := st.agentState.session.lastActivity }
    | none =>
        { id := st.agentState.session.id,
          startedAt := some st.agentState.session.startedAt,
          lastActivity := st.agentState.session.lastActivity }
  MCPE.sendToClient st clientId
    { type := .document_set_update,
      payload := { documents := some (docViews st.agentState.currentSelection),
                   session := some sessionInfo } }

/-- preserveSessionState of the enhanced server (lines 637-649): when the
client is registered, store a copy of the current MCPAgentState under the
session id. -/
def MCPE.preserveSessionState (now : Int) (st : MCPE.ServerState)
    (clientId sessionId : String) : List (String × MCPE.SessionState) :=
  match alGet st.clients clientId with
  | none => st.sessions
  | some _ =>
      alSet st.sessions sessionId
        { agentState := st.agentState, lastClientId := some clientId,
          createdAt := now, lastActive := now }

/-- handleReconnection of the enhanced server (lines 568-632).  Session and
client both found: restore the stored state copy, attach the session id,
refresh the bookkeeping, resend the agent state and confirm with an
agent_message carrying sessionRestored: true.  Otherwise: mint a new session
id, attach it to the client when present, reset the process-wide state to an
empty selection under the new session, persist that snapshot, resend the
agent state and reply with an agent_message carrying sessionRestored: false
plus the newSessionId. -/
def MCPE.handleReconnection (env : Env) (st : MCPE.ServerState)
    (clientId sessionId : String) : MCPE.ServerState × List (String × Frame) :=
  match alGet st.sessions sessionId, alGet st.clients clientId with
  | some session, some client =>
      let clients' :=
        alSet st.clients clientId { client with sessionId := some sessionId }
      let session' :=
        { session with lastActive := env.nowMs, lastClientId := some clientId }
      let st' : MCPE.ServerState :=
        { clients := clients', sessions := alSet st.sessions sessionId session',
          agentState := session.agentState }
      (st', MCPE.sendAgentState env st' clientId ++
        MCPE.sendToClient st' clientId
          { type := .agent_message,
            payload :=
              { message := some "Reconnected successfully. Your previous conversation state has been restored.",
                sessionRestored := some true } })
  | _, _ =>
      let newSessionId := "session-" ++ toString env.nowMs
      let clients' :=
        match alGet st.clients clientId with
        | some client =>
            alSet st.clients clientId { client with sessionId := some newSessionId }
        | none => st.clients
      let agentState' : MCPE.MCPAgentState :=
        { currentSelection := [], userFocus := {},
          session := { id := newSessionId, startedAt := env.nowIso,
                       lastActivity := env.nowIso } }
      let st1 : MCPE.ServerState :=
        { clients := clients', sessions := st.sessions, agentState := agentState' }
      let st2 :=
        { st1 with sessions :=
            MCPE.preserveSessionState env.nowMs st1 clientId newSessionId }
      (st2, MCPE.sendAgentState env st2 clientId ++
        MCPE.sendToClient st2 clientId
          { type := .agent_message,
            payload :=
              { message := some "Your previous session could not be found. A new session has been created.",
                sessionRestored := some false,
                newSessionId := some newSessionId } })

/-! ## Claim C1: reconnect with an unknown session id -/

/-- Concrete LangGraph server state used by the C1 counterexample: one open
client with no session and an empty session store. -/
def lgDemo : LG.ServerState :=
  { clients := [("client-1", {})],
    sessions := [],
    agentState :=
      { session := { id := "session-0", startedAt := "iso-0", lastActivity := "iso-0" } } }

/-- C1 counterexample: on the LangGraph server (the cited handleReconnection)
a reconnect frame whose session id is unknown is answered with an error
frame carrying code SESSION_NOT_FOUND; the server state is completely
unchanged, so no session id is minted, nothing is associated with the
connection and no empty snapshot is persisted, contradicting the claimed
success-shaped sessionRestored/newSessionId reply. -/
theorem reconnect_unknown_session_counterexample :
    LG.handleReconnection { nowMs := 5, nowIso := "iso-5" } lgDemo "client-1" "ghost" =
      (lgDemo,
        [("client-1",
          { type := .error,
            payload := { message := some "Session not found or expired",
                         code := some "SESSION_NOT_FOUND" } })]) := rfl

/-- C1 (amended): the minted-session fallback the claim describes is the
behaviour of the enhanced Mastra server variant, not of the cited LangGraph
server.  On the enhanced variant, a reconnect whose session id is missing
from the store mints session-now, associates it with the connection,
persists a snapshot whose selection is empty, and replies (after the state
resend) with an agent_message carrying sessionRestored: false plus the
newSessionId and no error frame, while a found session is confirmed with
sessionRestored: true; the LangGraph server instead replies to an unknown
session id with an error frame carrying code SESSION_NOT_FOUND and changes
nothing. -/
theorem reconnect_unknown_session_behaviour
    (env : Env) (st : MCPE.ServerState) (clientId sessionId : String) (client : Client)
    (hmiss : alGet st.sessions sessionId = none)
    (hc : alGet st.clients clientId = some client)
    (hopen : client.readyStateOpen = true) :
    alGet (MCPE.handleReconnection env st clientId sessionId).1.clients clientId =
        some { client with sessionId := some ("session-" ++ toString env.nowMs) } ∧
    alGet (MCPE.handleReconnection env st clientId sessionId).1.sessions
        ("session-" ++ toString env.nowMs) =
      some { agentState :=
               { currentSelection := [], userFocus := {},
                 session := { id := "session-" ++ toString env.nowMs,
                              startedAt := env.nowIso, lastActivity := env.nowIso } },
             lastClientId := some clientId,
             createdAt := env.nowMs, lastActive := env.nowMs } ∧
    (MCPE.handleReconnection env st clientId sessionId).2 =
      [(clientId,
        { type := .document_set_update,
          payload := { documents := some [],
                       session := some { id := "session-" ++ toString env.nowMs,
                                         lastActivity := env.nowIso } } }),
       (clientId,
        { type := .agent_message,
          payload :=
            { message := some "Your previous session could not be found. A new session has been created.",
              sessionRestored := some false,
              newSessionId := some ("session-" ++ toString env.nowMs) } })] ∧
    (∀ (st3 : MCPE.ServerState) (cid3 sid3 : String)
        (sess3 : MCPE.SessionState) (cl3 : Client),
      alGet st3.sessions sid3 = some sess3 → alGet st3.clients cid3 = some cl3 →
      cl3.readyStateOpen = true →
      ∃ pre, (MCPE.handleReconnection env st3 cid3 sid3).2 =
        pre ++ [(cid3,
          { type := .agent_message,
            payload :=
              { message := some "Reconnected successfully. Your previous conversation state has been restored.",
                sessionRestored := some true } })]) ∧
    (∀ (stg : LG.ServerState) (cid sid : String),
      alGet stg.sessions sid = none →
      LG.handleReconnection env stg cid sid =
        (stg, LG.sendToClient stg cid
          { type := .error,
            payload := { message := some "Session not found or expired",
                         code := some "SESSION_NOT_FOUND" } })) := by
  have hcset :
      alGet (alSet st.clients clientId
        { client with sessionId := some ("session-" ++ toString env.nowMs) }) clientId =
        some { client with sessionId := some ("session-" ++ toString env.nowMs) } :=
    alGet_alSet_self st.clients clientId _
  refine ⟨?_, ?_, ?_, ?_, ?_⟩
  · simp only [MCPE.handleReconnection, hmiss, hc]
    exact hcset
  · simp only [MCPE.handleReconnection, hmiss, hc, MCPE.preserveSessionState, hcset]
    exact alGet_alSet_self st.sessions _ _
  · simp only [MCPE.handleReconnection, hmiss, hc, MCPE.preserveSessionState,
      MCPE.sendAgentState, MCPE.sendToClient, hcset]
    simp [hopen, docViews]
  · intro st3 cid3 sid3 sess3 cl3 hs3 hc3 hopen3
    have hcset3 :
        alGet (alSet st3.clients cid3 { cl3 with sessionId := some sid3 }) cid3 =
          some { cl3 with sessionId := some sid3 } :=
      alGet_alSet_self st3.clients cid3 _
    refine ⟨MCPE.sendAgentState env
      { clients := alSet st3.clients cid3 { cl3 with sessionId := some sid3 },
        sessions := alSet st3.sessions sid3
          { sess3 with lastActive := env.nowMs, lastClientId := some cid3 },
        agentState := sess3.agentState } cid3, ?_⟩
    simp only [MCPE.handleReconnection, hs3, hc3]
    congr 1
    simp only [MCPE.sendToClient, hcset3]
    simp [hopen3]
  · intro stg cid sid hmissg
    simp only [LG.handleReconnection, hmissg]

/-- Concrete enhanced-server state for the C1 witness: one open client and an
empty session store. -/
def mcpeDemo : MCPE.ServerState :=
  { clients := [("client-1", {})],
    sessions := [],
    agentState :=
      { session := { id := "session-0", startedAt := "iso-0", lastActivity := "iso-0" } } }

/-- Witness for reconnect_unknown_session_behaviour at a concrete enhanced
server state, clock 7, and the unknown session id ghost. -/
theorem reconnect_unknown_session_behaviour_witness :
    alGet (MCPE.handleReconnection { nowMs := 7, nowIso := "iso-7" } mcpeDemo
        "client-1" "ghost").1.clients "client-1" =
        some { sessionId := some ("session-" ++ toString (7 : Int)) } ∧
      alGet (MCPE.handleReconnection { nowMs := 7, nowIso := "iso-7" } mcpeDemo
          "client-1" "ghost").1.sessions ("session-" ++ toString (7 : Int)) =
        some { agentState :=
                 { currentSelection := [], userFocus := {},
                   session := { id := "session-" ++ toString (7 : Int),
                                startedAt := "iso-7", lastActivity := "iso-7" } },
               lastClientId := some "client-1",
               createdAt := 7, lastActive := 7 } ∧
      (MCPE.handleReconnection { nowMs := 7, nowIso := "iso-7" } mcpeDemo
          "client-1" "ghost").2 =
        [("client-1",
          { type := .document_set_update,
            payload := { documents := some [],
                         session := some { id := "session-" ++ toString (7 : Int),
                                           lastActivity := "iso-7" } } }),
         ("client-1",
          { type := .agent_message,
            payload :=
              { message := some "Your previous session could not be found. A new session has been created.",
                sessionRestored := some false,
                newSessionId := some ("session-" ++ toString (7 : Int)) } })] ∧
      (∀ (st3 : MCPE.ServerState) (cid3 sid3 : String)
          (sess3 : MCPE.SessionState) (cl3 : Client),
        alGet st3.sessions sid3 = some sess3 → alGet st3.clients cid3 = some cl3 →
        cl3.readyStateOpen = true →
        ∃ pre, (MCPE.handleReconnection { nowMs := 7, nowIso := "iso-7" } st3
            cid3 sid3).2 =
          pre ++ [(cid3,
            { type := .agent_message,
              payload :=
                { message := some "Reconnected successfully. Your previous conversation state has been restored.",
                  sessionRestored := some true } })]) ∧
      (∀ (stg : LG.ServerState) (cid sid : String),
        alGet stg.sessions sid = none →
        LG.handleReconnection { nowMs := 7, nowIso := "iso-7" } stg cid sid =
          (stg, LG.sendToClient stg cid
            { type := .error,
              payload := { message := some "Session not found or expired",
                           code := some "SESSION_NOT_FOUND" } })) :=
  reconnect_unknown_session_behaviour { nowMs := 7, nowIso := "iso-7" } mcpeDemo
    "client-1" "ghost" {} (by decide) (by decide) (by decide)

/-! ## Claim C4: heartbeat termination -/

theorem keys_tickList (l : List (String × Client)) :
    ((l.filter (fun p => p.2.isAlive)).map
      (fun p => (p.1, { p.2 with isAlive := false }))).map Prod.fst =
      (l.filter (fun p => p.2.isAlive)).map Prod.fst := by
  induction l with
  | nil => rfl
  | cons q rest ih =>
      by_cases h : q.2.isAlive
      · simp [List.filter_cons, h, ih]
      · simp [List.filter_cons, h, ih]

theorem alGet_tickList (l : List (String × Client)) (k : String)
    (hnd : (l.map Prod.fst).Nodup) :
    alGet ((l.filter (fun p => p.2.isAlive)).map
      (fun p => (p.1, { p.2 with isAlive := false }))) k =
      match alGet l k with
      | some c => if c.isAlive then some { c with isAlive := false } else none
      | none => none := by
  induction l with
  | nil => simp [alGet]
  | cons q rest ih =>
      obtain ⟨k0, c0⟩ := q
      simp only [List.map_cons, List.nodup_cons] at hnd
      by_cases h0 : k0 = k
      · subst h0
        by_cases ha : c0.isAlive
        · simp [List.filter_cons, ha, alGet]
        · have hnotmem :
              k0 ∉ ((rest.filter (fun p => p.2.isAlive)).map
                (fun p => (p.1, { p.2 with isAlive := false }))).map Prod.fst := by
            rw [keys_tickList]
            intro hm
            exact hnd.1 (((List.filter_sublist rest).map Prod.fst).mem hm)
          have hnone := alGet_eq_none_of_not_mem _ k0 hnotmem
          have ha' : c0.isAlive = false := by
            cases hx : c0.isAlive
            · rfl
            · exact absurd hx ha
          simp [List.filter_cons, ha', alGet, hnone]
      · by_cases ha : c0.isAlive
        · simp [List.filter_cons, ha, alGet, beq_false_of_ne h0, ih hnd.2]
        · have ha' : c0.isAlive = false := by
            cases hx : c0.isAlive
            · rfl
            · exact absurd hx ha
          simp [List.filter_cons, ha', alGet, beq_false_of_ne h0, ih hnd.2]

theorem nodup_keys_tickList (l : List (String × Client))
    (hnd : (l.map Prod.fst).Nodup) :
    (((l.filter (fun p => p.2.isAlive)).map
      (fun p => (p.1, { p.2 with isAlive := false }))).map Prod.fst).Nodup := by
  rw [keys_tickList]
  exact ((List.filter_sublist l).map Prod.fst).nodup hnd

theorem alGet_receivePong_ne (now : Int) (clients : List (String × Client))
    (cid cid' : String) (h : cid' ≠ cid) :
    alGet (LG.receivePong now clients cid) cid' = alGet clients cid' := by
  unfold LG.receivePong
  cases hg : alGet clients cid with
  | none => rfl
  | some c => exact alGet_alSet_ne clients cid cid' _ h

theorem nodup_keys_receivePong (now : Int) (clients : List (String × Client))
    (cid : String) (hnd : (clients.map Prod.fst).Nodup) :
    ((LG.receivePong now clients cid).map Prod.fst).Nodup := by
  unfold LG.receivePong
  cases hg : alGet clients cid with
  | none => exact hnd
  | some c => exact nodup_keys_alSet clients cid _ hnd

theorem alGet_foldl_receivePong (pongs : List (String × Int)) (cid : String)
    (h : ∀ q ∈ pongs, q.1 ≠ cid) :
    ∀ clients : List (String × Client),
      alGet (pongs.foldl (fun acc q => LG.receivePong q.2 acc q.1) clients) cid =
        alGet clients cid := by
  induction pongs with
  | nil => intro clients; rfl
  | cons q rest ih =>
      intro clients
      have hq : q.1 ≠ cid := h q (by simp)
      have hstep : alGet (LG.receivePong q.2 clients q.1) cid = alGet clients cid :=
        alGet_receivePong_ne q.2 clients q.1 cid (fun e => hq e.symm)
      rw [List.foldl_cons, ih (fun p hp => h p (by simp [hp])), hstep]

theorem nodup_keys_foldl_receivePong (pongs : List (String × Int)) :
    ∀ clients : List (String × Client), (clients.map Prod.fst).Nodup →
      ((pongs.foldl (fun acc q => LG.receivePong q.2 acc q.1) clients).map
        Prod.fst).Nodup := by
  induction pongs with
  | nil => intro clients h; exact h
  | cons q rest ih =>
      intro clients h
      rw [List.foldl_cons]
      exact ih _ (nodup_keys_receivePong q.2 clients q.1 h)

/-- C4: a connection registered and ALIVE that never answers a ping with a
pong is still registered (now PENDING_PONG) immediately after the heartbeat
tick that sent its ping, remains registered through any interleaved pongs of
other connections, and is removed from the registry by exactly the next
tick - the missed-pong check terminating the socket, whose close handler
deletes the registry entry. -/
theorem heartbeat_exactly_one_interval
    (st : LG.ServerState) (clientId : String) (c : Client)
    (now1 now2 : Int) (snap1 snap2 : SanityAgentState) (pongs : List (String × Int))
    (hnd : (st.clients.map Prod.fst).Nodup)
    (hc : alGet st.clients clientId = some c)
    (halive : c.isAlive = true)
    (hnever : ∀ q ∈ pongs, q.1 ≠ clientId) :
    alGet (LG.heartbeatTick now1 snap1 st).1.clients clientId =
        some { c with isAlive := false } ∧
    alGet (pongs.foldl (fun acc q => LG.receivePong q.2 acc q.1)
        (LG.heartbeatTick now1 snap1 st).1.clients) clientId =
      some { c with isAlive := false } ∧
    alGet (LG.heartbeatTick now2 snap2
        { (LG.heartbeatTick now1 snap1 st).1 with
            clients := pongs.foldl (fun acc q => LG.receivePong q.2 acc q.1)
              (LG.heartbeatTick now1 snap1 st).1.clients }).1.clients clientId =
      none := by
  have htick1 : (LG.heartbeatTick now1 snap1 st).1.clients =
      (st.clients.filter (fun p => p.2.isAlive)).map
        (fun p => (p.1, { p.2 with isAlive := false })) := rfl
  have h1 : alGet (LG.heartbeatTick now1 snap1 st).1.clients clientId =
      some { c with isAlive := false } := by
    rw [htick1, alGet_tickList st.clients clientId hnd, hc]
    simp [halive]
  have hnd1 : ((LG.heartbeatTick now1 snap1 st).1.clients.map Prod.fst).Nodup := by
    rw [htick1]
    exact nodup_keys_tickList st.clients hnd
  have h2 : alGet (pongs.foldl (fun acc q => LG.receivePong q.2 acc q.1)
      (LG.heartbeatTick now1 snap1 st).1.clients) clientId =
      some { c with isAlive := false } := by
    rw [alGet_foldl_receivePong pongs clientId hnever, h1]
  have hnd2 : ((pongs.foldl (fun acc q => LG.receivePong q.2 acc q.1)
      (LG.heartbeatTick now1 snap1 st).1.clients).map Prod.fst).Nodup :=
    nodup_keys_foldl_receivePong pongs _ hnd1
  refine ⟨h1, h2, ?_⟩
  have htick2 : (LG.heartbeatTick now2 snap2
      { (LG.heartbeatTick now1 snap1 st).1 with
          clients := pongs.foldl (fun acc q => LG.receivePong q.2 acc q.1)
            (LG.heartbeatTick now1 snap1 st).1.clients }).1.clients =
      ((pongs.foldl (fun acc q => LG.receivePong q.2 acc q.1)
          (LG.heartbeatTick now1 snap1 st).1.clients).filter
        (fun p => p.2.isAlive)).map
        (fun p => (p.1, { p.2 with isAlive := false })) := rfl
  rw [htick2, alGet_tickList _ clientId hnd2, h2]
  simp

/-- Witness for heartbeat_exactly_one_interval: a single silent client and
one interleaved pong from another connection. -/
theorem heartbeat_exactly_one_interval_witness :
    alGet (LG.heartbeatTick 100 { token := 0 } lgDemo).1.clients "client-1" =
        some { isAlive := false } ∧
      alGet ([(("other" : String), (150 : Int))].foldl
          (fun acc q => LG.receivePong q.2 acc q.1)
          (LG.heartbeatTick 100 { token := 0 } lgDemo).1.clients) "client-1" =
        some { isAlive := false } ∧
      alGet (LG.heartbeatTick 130 { token := 0 }
          { (LG.heartbeatTick 100 { token := 0 } lgDemo).1 with
              clients := [(("other" : String), (150 : Int))].foldl
                (fun acc q => LG.receivePong q.2 acc q.1)
                (LG.heartbeatTick 100 { token := 0 } lgDemo).1.clients }).1.clients
        "client-1" = none :=
  heartbeat_exactly_one_interval lgDemo "client-1" {} 100 130 { token := 0 }
    { token := 0 } [("other", 150)] (by decide) (by decide) (by decide)
    (by intro q hq; simp at hq; simp [hq])

/-! ## Claim C6: socket-level error recovery -/

/-- Demo LangGraph state for C6: one open client holding a session id, no
prior recovery attempts, and an empty session store. -/
def lgDemoRec : LG.ServerState :=
  { clients := [("client-1", { sessionId := some "sess-9" })],
    sessions := [],
    agentState :=
      { session := { id := "sess-9", startedAt := "iso-0", lastActivity := "iso-0" } } }

/-- C6 counterexample: on the LangGraph server a recoverable transport error
(code ECONNRESET) yields a reconnect-request error frame that carries no
backoff delay hint (payload.delay is none) and preserves no session state
(the session store stays empty), contradicting the claimed
exponential-backoff hint and session preservation. -/
theorem socket_recovery_counterexample :
    LG.onSocketError lgDemoRec "client-1" { code := "ECONNRESET" } =
      ({ lgDemoRec with
          clients := [("client-1",
            { sessionId := some "sess-9", reconnectAttempts := 1 })] },
       [("client-1",
         { type := .error,
           payload := { message := some "Connection error, please reconnect",
                        code := some "CONNECTION_ERROR",
                        reconnect := some true,
                        sessionId := some "sess-9",
                        delay := none } })]) := by decide

/-- C6 (amended): on the LangGraph server a socket-level error classified
recoverable triggers attemptClientRecovery, which increments the attempt
counter; while the incremented counter is at most MAX_RECONNECT_ATTEMPTS (3)
the client stays registered with the bumped counter, the session store is
untouched, and - when the socket is open - a reconnect-request error frame
(code CONNECTION_ERROR, reconnect: true, the client session id) is sent
without any delay hint; once the incremented counter exceeds 3 the
connection is terminated and removed from the registry and nothing is
sent. -/
theorem socket_error_recovery_behaviour
    (st : LG.ServerState) (clientId : String) (c : Client) (e : JsError)
    (hnd : (st.clients.map Prod.fst).Nodup)
    (hc : alGet st.clients clientId = some c)
    (hrec : isRecoverableConnectionError e = true) :
    (c.reconnectAttempts + 1 ≤ MAX_RECONNECT_ATTEMPTS →
      LG.onSocketError st clientId e =
        ({ st with clients := (alSet st.clients clientId
             { c with reconnectAttempts := c.reconnectAttempts + 1 }) },
         if c.readyStateOpen then
           [(clientId,
             { type := .error,
               payload := { message := some "Connection error, please reconnect",
                            code := some "CONNECTION_ERROR",
                            reconnect := some true,
                            sessionId := c.sessionId,
                            delay := none } })]
         else [])) ∧
    (c.reconnectAttempts + 1 > MAX_RECONNECT_ATTEMPTS →
      alGet (LG.onSocketError st clientId e).1.clients clientId = none ∧
      (LG.onSocketError st clientId e).2 = [] ∧
      (LG.onSocketError st clientId e).1.sessions = st.sessions) := by
  constructor
  · intro hle
    have hgt : ¬ (c.reconnectAttempts + 1 > MAX_RECONNECT_ATTEMPTS) := by omega
    simp only [LG.onSocketError, hrec, if_true, LG.attemptClientRecovery, hc]
    rw [if_neg hgt]
  · intro hgt
    simp only [LG.onSocketError, hrec, if_true, LG.attemptClientRecovery, hc]
    rw [if_pos hgt]
    exact ⟨alGet_alRemove_self st.clients clientId hnd, rfl, rfl⟩

/-- Witness for socket_error_recovery_behaviour at the demo state and a
concrete ECONNRESET error. -/
theorem socket_error_recovery_behaviour_witness :
    (({ sessionId := some "sess-9" } : Client).reconnectAttempts + 1 ≤
        MAX_RECONNECT_ATTEMPTS →
      LG.onSocketError lgDemoRec "client-1" { code := "ECONNRESET" } =
        ({ lgDemoRec with clients := (alSet lgDemoRec.clients "client-1"
             { ({ sessionId := some "sess-9" } : Client) with
                 reconnectAttempts :=
                   ({ sessionId := some "sess-9" } : Client).reconnectAttempts + 1 }) },
         if ({ sessionId := some "sess-9" } : Client).readyStateOpen then
           [("client-1",
             { type := .error,
               payload := { message := some "Connection error, please reconnect",
                            code := some "CONNECTION_ERROR",
                            reconnect := some true,
                            sessionId := ({ sessionId := some "sess-9" } : Client).sessionId,
                            delay := none } })]
         else [])) ∧
    (({ sessionId := some "sess-9" } : Client).reconnectAttempts + 1 >
        MAX_RECONNECT_ATTEMPTS →
      alGet (LG.onSocketError lgDemoRec "client-1"
          { code := "ECONNRESET" }).1.clients "client-1" = none ∧
      (LG.onSocketError lgDemoRec "client-1" { code := "ECONNRESET" }).2 = [] ∧
      (LG.onSocketError lgDemoRec "client-1" { code := "ECONNRESET" }).1.sessions =
        lgDemoRec.sessions) :=
  socket_error_recovery_behaviour lgDemoRec "client-1" { sessionId := some "sess-9" }
    { code := "ECONNRESET" } (by decide) (by decide) (by decide)

/-! ## Claim C7: malformed frames are non-fatal -/

/-- C7: an inbound frame that is not valid JSON is answered with a generic
invalid-message error frame to its sender, the server state (and with it the
registry) is unchanged, and the connection keeps processing subsequent
frames: a following pong is dispatched normally and marks the client
alive. -/
theorem invalid_json_nonfatal
    (env : Env) (st : LG.ServerState) (clientId : String) (c : Client)
    (hc : alGet st.clients clientId = some c)
    (hopen : c.readyStateOpen = true) :
    LG.onMessage env st clientId none =
      (st, [(clientId,
        { type := .error,
          payload := { message := some "Failed to process your message",
                       code := some "SYNTAXERROR" } })]) ∧
    (LG.onMessage env st clientId (some { type := .pong, payload := {} })).1.clients =
      LG.receivePong env.nowMs st.clients clientId ∧
    alGet (LG.receivePong env.nowMs st.clients clientId) clientId =
      some { c with lastActive := env.nowMs, isAlive := true } := by
  refine ⟨?_, ?_, ?_⟩
  · simp only [LG.onMessage, LG.sendToClient, hc, hopen, if_true]
  · simp only [LG.onMessage, hc]
    rfl
  · simp only [LG.receivePong, hc]
    exact alGet_alSet_self st.clients clientId _

/-- Witness for invalid_json_nonfatal on the demo state. -/
theorem invalid_json_nonfatal_witness :
    LG.onMessage { nowMs := 42 } lgDemo "client-1" none =
      (lgDemo, [("client-1",
        { type := .error,
          payload := { message := some "Failed to process your message",
                       code := some "SYNTAXERROR" } })]) ∧
    (LG.onMessage { nowMs := 42 } lgDemo "client-1"
        (some { type := .pong, payload := {} })).1.clients =
      LG.receivePong (42 : Int) lgDemo.clients "client-1" ∧
    alGet (LG.receivePong (42 : Int) lgDemo.clients "client-1") "client-1" =
      some { lastActive := 42, isAlive := true } :=
  invalid_json_nonfatal { nowMs := 42 } lgDemo "client-1" {} (by decide) (by decide)

/-! ## Claim C8: the user_message flow -/

theorem alGet_preserveSessionState_self (now : Int) (snap : SanityAgentState)
    (sessions : List (String × SessionState)) (clientId sid : String)
    (hnd : (sessions.map Prod.fst).Nodup) :
    alGet (LG.preserveSessionState now snap sessions clientId sid) sid =
      some { agentState := snap, lastClientId := some clientId,
             createdAt := now, lastActive := now } := by
  unfold LG.preserveSessionState cleanupExpiredSessions
  have hnd' := nodup_keys_alSet sessions sid
    ({ agentState := snap, lastClientId := some clientId,
       createdAt := now, lastActive := now }) hnd
  have hself := alGet_alSet_self sessions sid
    ({ agentState := snap, lastClientId := some clientId,
       createdAt := now, lastActive := now })
  rw [alGet_filter_of_nodup (fun p => sessionFresh now p.2) _ sid _ hnd' hself]
  have hfresh : sessionFresh now
      ({ agentState := snap, lastClientId := some clientId,
         createdAt := now, lastActive := now } : SessionState) = true := by
    simp [sessionFresh, sub_self, SESSION_EXPIRY]
  rw [if_pos hfresh]

theorem nodup_keys_preserveSessionState (now : Int) (snap : SanityAgentState)
    (sessions : List (String × SessionState)) (clientId sid : String)
    (hnd : (sessions.map Prod.fst).Nodup) :
    ((LG.preserveSessionState now snap sessions clientId sid).map Prod.fst).Nodup := by
  unfold LG.preserveSessionState cleanupExpiredSessions
  exact nodup_keys_filter _ _ (nodup_keys_alSet sessions sid _ hnd)

/-- C8: on a user_message the server first emits the thinking_state frame to
the sender and only then, after generate resolves, the agent_message whose
payload.message is exactly the generated string and whose requestId echoes
the request; the session (minted on the first message when the connection
carries none) is preserved in the store both before and after the generate
call, so after a failure the pre-call snapshot is still stored; on generate
failure an error frame replaces the agent_message and the client stays
registered with its session id. -/
theorem user_message_flow
    (env : Env) (st : LG.ServerState) (clientId content : String)
    (requestId : Option String) (c : Client)
    (hnd : (st.sessions.map Prod.fst).Nodup)
    (hc : alGet st.clients clientId = some c)
    (hopen : c.readyStateOpen = true) :
    (∀ resp, env.genResult = .ok resp →
      (LG.handleUserMessage env st clientId content requestId).2 =
        [(clientId, { type := .thinking_state,
                      payload := { state := some "processing" },
                      requestId := requestId }),
         (clientId, { type := .agent_message,
                      payload := { message := some resp,
                                   timestamp := some env.nowIso },
                      requestId := requestId })] ∧
      alGet (LG.handleUserMessage env st clientId content requestId).1.sessions
          (c.sessionId.getD ("session-" ++ toString env.nowMs)) =
        some { agentState := env.snapAfter, lastClientId := some clientId,
               createdAt := env.nowMs, lastActive := env.nowMs } ∧
      alGet (LG.handleUserMessage env st clientId content requestId).1.clients
          clientId =
        some { c with sessionId :=
          (some (c.sessionId.getD ("session-" ++ toString env.nowMs))) }) ∧
    (∀ er, env.genResult = .error er →
      (LG.handleUserMessage env st clientId content requestId).2 =
        [(clientId, { type := .thinking_state,
                      payload := { state := some "processing" },
                      requestId := requestId }),
         (clientId, { type := .error,
                      payload := { message := some "Failed to process your message" },
                      requestId := requestId })] ∧
      alGet (LG.handleUserMessage env st clientId content requestId).1.sessions
          (c.sessionId.getD ("session-" ++ toString env.nowMs)) =
        some { agentState := env.snapBefore, lastClientId := some clientId,
               createdAt := env.nowMs, lastActive := env.nowMs } ∧
      alGet (LG.handleUserMessage env st clientId content requestId).1.clients
          clientId =
        some { c with sessionId :=
          (some (c.sessionId.getD ("session-" ++ toString env.nowMs))) }) := by
  obtain ⟨csid, cla, cia, cra, cro⟩ := c
  simp only at hopen
  subst hopen
  cases csid with
  | some s =>
      have hmain :
          LG.handleUserMessage env st clientId content requestId =
            (let sessions1 := LG.preserveSessionState env.nowMs env.snapBefore
                st.sessions clientId s
             let meta1 : SessionMeta :=
               { st.agentState.session with lastActivity := env.nowIso }
             let ags1 : LG.WebSocketState := { st.agentState with session := meta1 }
             let st1 : LG.ServerState :=
               { st with sessions := sessions1, agentState := ags1 }
             match env.genResult with
             | .ok response =>
                 let sessions2 := LG.preserveSessionState env.nowMs env.snapAfter
                   sessions1 clientId s
                 ({ st1 with sessions := sessions2 },
                  [(clientId, { type := .thinking_state,
                                payload := { state := some "processing" },
                                requestId := requestId }),
                   (clientId, { type := .agent_message,
                                payload := { message := some response,
                                             timestamp := some env.nowIso },
                                requestId := requestId })])
             | .error _ =>
                 (st1,
                  [(clientId, { type := .thinking_state,
                                payload := { state := some "processing" },
                                requestId := requestId }),
                   (clientId, { type := .error,
                                payload :=
                                  { message := some "Failed to process your message" },
                                requestId := requestId })])) := by
        simp only [LG.handleUserMessage, hc, Option.isNone, LG.sendToClient]
        cases env.genResult with
        | ok r => simp [LG.sendToClient, hc]
        | error er => simp [LG.sendToClient, hc]
      constructor
      · intro resp hok
        rw [hmain]
        simp only [hok]
        refine ⟨by simp, ?_, ?_⟩
        · exact alGet_preserveSessionState_self env.nowMs env.snapAfter _ clientId s
            (nodup_keys_preserveSessionState env.nowMs env.snapBefore st.sessions
              clientId s hnd)
        · simpa using hc
      · intro er herr
        rw [hmain]
        simp only [herr]
        refine ⟨by simp, ?_, ?_⟩
        · exact alGet_preserveSessionState_self env.nowMs env.snapBefore st.sessions
            clientId s hnd
        · simpa using hc
  | none =>
      have hcset := alGet_alSet_self st.clients clientId
        ({ sessionId := some ("session-" ++ toString env.nowMs), lastActive := cla,
           isAlive := cia, reconnectAttempts := cra, readyStateOpen := true } : Client)
      have hmain :
          LG.handleUserMessage env st clientId content requestId =
            (let minted := "session-" ++ toString env.nowMs
             let clients1 := alSet st.clients clientId
               { sessionId := some minted, lastActive := cla, isAlive := cia,
                 reconnectAttempts := cra, readyStateOpen := true }
             let sessions1 := LG.preserveSessionState env.nowMs env.snapBefore
                st.sessions clientId minted
             let meta1 : SessionMeta :=
               { id := minted, startedAt := env.nowIso, lastActivity := env.nowIso }
             let ags1 : LG.WebSocketState := { st.agentState with session := meta1 }
             let st1 : LG.ServerState :=
               { st with clients := clients1, sessions := sessions1, agentState := ags1 }
             match env.genResult with
             | .ok response =>
                 let sessions2 := LG.preserveSessionState env.nowMs env.snapAfter
                   sessions1 clientId minted
                 ({ st1 with sessions := sessions2 },
                  [(clientId, { type := .thinking_state,
                                payload := { state := some "processing" },
                                requestId := requestId }),
                   (clientId, { type := .agent_message,
                                payload := { message := some response,
                                             timestamp := some env.nowIso },
                                requestId := requestId })])
             | .error _ =>
                 (st1,
                  [(clientId, { type := .thinking_state,
                                payload := { state := some "processing" },
                                requestId := requestId }),
                   (clientId, { type := .error,
                                payload :=
                                  { message := some "Failed to process your message" },
                                requestId := requestId })])) := by
        simp only [LG.handleUserMessage, hc, Option.isNone, LG.sendToClient, hcset]
        cases env.genResult with
        | ok r => simp [LG.sendToClient, hcset]
        | error er => simp [LG.sendToClient, hcset]
      constructor
      · intro resp hok
        rw [hmain]
        simp only [hok]
        refine ⟨by simp, ?_, ?_⟩
        · exact alGet_preserveSessionState_self env.nowMs env.snapAfter _ clientId _
            (nodup_keys_preserveSessionState env.nowMs env.snapBefore st.sessions
              clientId _ hnd)
        · simpa using hcset
      · intro er herr
        rw [hmain]
        simp only [herr]
        refine ⟨by simp, ?_, ?_⟩
        · exact alGet_preserveSessionState_self env.nowMs env.snapBefore st.sessions
            clientId _ hnd
        · simpa using hcset

/-- Witness for user_message_flow: the demo state, a successful generate
returning the string hello back, and request id r1. -/
theorem user_message_flow_witness :
    (∀ resp,
      ({ nowMs := 9, nowIso := "iso-9", snapBefore := { token := 3 },
         snapAfter := { token := 4 },
         genResult := .ok "hello back" } : Env).genResult = .ok resp →
      (LG.handleUserMessage
          { nowMs := 9, nowIso := "iso-9", snapBefore := { token := 3 },
            snapAfter := { token := 4 }, genResult := .ok "hello back" }
          lgDemo "client-1" "hi" (some "r1")).2 =
        [("client-1", { type := .thinking_state,
                        payload := { state := some "processing" },
                        requestId := some "r1" }),
         ("client-1", { type := .agent_message,
                        payload := { message := some resp,
                                     timestamp := some "iso-9" },
                        requestId := some "r1" })] ∧
      alGet (LG.handleUserMessage
          { nowMs := 9, nowIso := "iso-9", snapBefore := { token := 3 },
            snapAfter := { token := 4 }, genResult := .ok "hello back" }
          lgDemo "client-1" "hi" (some "r1")).1.sessions
          (((none : Option String)).getD ("session-" ++ toString (9 : Int))) =
        some { agentState := { token := 4 }, lastClientId := some "client-1",
               createdAt := 9, lastActive := 9 } ∧
      alGet (LG.handleUserMessage
          { nowMs := 9, nowIso := "iso-9", snapBefore := { token := 3 },
            snapAfter := { token := 4 }, genResult := .ok "hello back" }
          lgDemo "client-1" "hi" (some "r1")).1.clients "client-1" =
        some { ({} : Client) with sessionId :=
          (some (((none : Option String)).getD ("session-" ++ toString (9 : Int)))) }) ∧
    (∀ er,
      ({ nowMs := 9, nowIso := "iso-9", snapBefore := { token := 3 },
         snapAfter := { token := 4 },
         genResult := .ok "hello back" } : Env).genResult = .error er →
      (LG.handleUserMessage
          { nowMs := 9, nowIso := "iso-9", snapBefore := { token := 3 },
            snapAfter := { token := 4 }, genResult := .ok "hello back" }
          lgDemo "client-1" "hi" (some "r1")).2 =
        [("client-1", { type := .thinking_state,
                        payload := { state := some "processing" },
                        requestId := some "r1" }),
         ("client-1", { type := .error,
                        payload := { message := some "Failed to process your message" },
                        requestId := some "r1" })] ∧
      alGet (LG.handleUserMessage
          { nowMs := 9, nowIso := "iso-9", snapBefore := { token := 3 },
            snapAfter := { token := 4 }, genResult := .ok "hello back" }
          lgDemo "client-1" "hi" (some "r1")).1.sessions
          (((none : Option String)).getD ("session-" ++ toString (9 : Int))) =
        some { agentState := { token := 3 }, lastClientId := some "client-1",
               createdAt := 9, lastActive := 9 } ∧
      alGet (LG.handleUserMessage
          { nowMs := 9, nowIso := "iso-9", snapBefore := { token := 3 },
            snapAfter := { token := 4 }, genResult := .ok "hello back" }
          lgDemo "client-1" "hi" (some "r1")).1.clients "client-1" =
        some { ({} : Client) with sessionId :=
          (some (((none : Option String)).getD ("session-" ++ toString (9 : Int)))) }) :=
  user_message_flow
    { nowMs := 9, nowIso := "iso-9", snapBefore := { token := 3 },
      snapAfter := { token := 4 }, genResult := .ok "hello back" }
    lgDemo "client-1" "hi" (some "r1") {} (by decide) (by decide) (by decide)

/-! ## Claim C9: the what-am-I-looking-at shortcut of the Mastra server -/

/-- C9: in the Mastra server variant, a user_message whose content matches
the what-am-I-looking-at pattern (case-insensitively) is answered without
ever invoking the external agent: the result does not depend on the generate
collaborator at all, the agent-used flag is false, and the reply is the
agent_message built from the current userFocus and Selection, with the
distinct no-focus and not-in-selection replies and the lastQueryAnswered
marker when the focused document is found. -/
theorem ws_pattern_answered_locally
    (st : WS.MCPAgentState) (clients : List (String × WS.Client))
    (clientId content : String) (requestId : Option String)
    (g g' : String → Except String String)
    (h : whatAmILookingAtPattern content = true) :
    WS.handleUserMessage st clients clientId content requestId g =
      WS.handleUserMessage st clients clientId content requestId g' ∧
    (WS.handleUserMessage st clients clientId content requestId g).2.2 = false ∧
    (truthy st.userFocus.documentId = false →
      (WS.handleUserMessage st clients clientId content requestId g).2.1 =
        WS.sendToClient clients clientId
          { type := .agent_message,
            payload := { content := some WS.noFocusReply },
            requestId := requestId }) ∧
    (truthy st.userFocus.documentId = true →
      st.currentSelection.find?
          (fun doc => doc.id == st.userFocus.documentId.getD "") = none →
      (WS.handleUserMessage st clients clientId content requestId g).2.1 =
        WS.sendToClient clients clientId
          { type := .agent_message,
            payload := { content := some (WS.notInSelectionReply (st.userFocus.documentId.getD "")) },
            requestId := requestId }) ∧
    (∀ focusedDoc,
      truthy st.userFocus.documentId = true →
      st.currentSelection.find?
          (fun doc => doc.id == st.userFocus.documentId.getD "") = some focusedDoc →
      (WS.handleUserMessage st clients clientId content requestId g).2.1 =
        WS.sendToClient clients clientId
          { type := .agent_message,
            payload := { content := some (WS.lookingAtReply focusedDoc),
                         documentId := some focusedDoc.id },
            requestId := requestId } ∧
      (WS.handleUserMessage st clients clientId content requestId g).1 =
        { st with userFocus :=
            { st.userFocus with
                lastQueryAnswered := some "what_am_i_looking_at" } }) := by
  refine ⟨?_, ?_, ?_, ?_, ?_⟩
  · simp only [WS.handleUserMessage, h, if_true]
  · simp only [WS.handleUserMessage, h, if_true]
    by_cases hf : truthy st.userFocus.documentId
    · simp only [hf, Bool.not_true, Bool.false_eq_true, if_false]
      cases hfind : st.currentSelection.find?
          (fun doc => doc.id == st.userFocus.documentId.getD "") <;>
        simp [hfind]
    · have hf' : truthy st.userFocus.documentId = false := by
        cases hx : truthy st.userFocus.documentId
        · rfl
        · exact absurd hx hf
      simp [hf']
  · intro hf
    simp [WS.handleUserMessage, h, hf]
  · intro hf hfind
    simp [WS.handleUserMessage, h, hf, hfind]
  · intro focusedDoc hf hfind
    exact ⟨by simp [WS.handleUserMessage, h, hf, hfind],
           by simp [WS.handleUserMessage, h, hf, hfind]⟩

/-- Concrete Mastra-server state for the C9 witness: doc1 focused and present
in the Selection. -/
def wsDemoState : WS.MCPAgentState :=
  { currentSelection := [{ id := "doc1", type := some "article", title := some "My Doc" }],
    userFocus := { documentId := some "doc1" },
    session := { id := "s", startedAt := "t0", lastActivity := "t0" } }

/-- Concrete client registry for the C9 witness. -/
def wsDemoClients : List (String × WS.Client) := [("client-1", {})]

/-- Witness for ws_pattern_answered_locally on the focused demo state, the
content What am I looking at?, and two different generate collaborators. -/
theorem ws_pattern_answered_locally_witness :
    WS.handleUserMessage wsDemoState wsDemoClients "client-1"
        "What am I looking at?" (some "r1") (fun _ => .ok "ignored") =
      WS.handleUserMessage wsDemoState wsDemoClients "client-1"
        "What am I looking at?" (some "r1") (fun _ => .error "boom") ∧
    (WS.handleUserMessage wsDemoState wsDemoClients "client-1"
        "What am I looking at?" (some "r1") (fun _ => .ok "ignored")).2.2 = false ∧
    (truthy wsDemoState.userFocus.documentId = false →
      (WS.handleUserMessage wsDemoState wsDemoClients "client-1"
          "What am I looking at?" (some "r1") (fun _ => .ok "ignored")).2.1 =
        WS.sendToClient wsDemoClients "client-1"
          { type := .agent_message,
            payload := { content := some WS.noFocusReply },
            requestId := some "r1" }) ∧
    (truthy wsDemoState.userFocus.documentId = true →
      wsDemoState.currentSelection.find?
          (fun doc => doc.id == wsDemoState.userFocus.documentId.getD "") = none →
      (WS.handleUserMessage wsDemoState wsDemoClients "client-1"
          "What am I looking at?" (some "r1") (fun _ => .ok "ignored")).2.1 =
        WS.sendToClient wsDemoClients "client-1"
          { type := .agent_message,
            payload := { content := some (WS.notInSelectionReply (wsDemoState.userFocus.documentId.getD "")) },
            requestId := some "r1" }) ∧
    (∀ focusedDoc,
      truthy wsDemoState.userFocus.documentId = true →
      wsDemoState.currentSelection.find?
          (fun doc => doc.id == wsDemoState.userFocus.documentId.getD "") =
        some focusedDoc →
      (WS.handleUserMessage wsDemoState wsDemoClients "client-1"
          "What am I looking at?" (some "r1") (fun _ => .ok "ignored")).2.1 =
        WS.sendToClient wsDemoClients "client-1"
          { type := .agent_message,
            payload := { content := some (WS.lookingAtReply focusedDoc),
                         documentId := some focusedDoc.id },
            requestId := some "r1" } ∧
      (WS.handleUserMessage wsDemoState wsDemoClients "client-1"
          "What am I looking at?" (some "r1") (fun _ => .ok "ignored")).1 =
        { wsDemoState with userFocus :=
            { wsDemoState.userFocus with
                lastQueryAnswered := some "what_am_i_looking_at" } }) :=
  ws_pattern_answered_locally wsDemoState wsDemoClients "client-1"
    "What am I looking at?" (some "r1") (fun _ => .ok "ignored")
    (fun _ => .error "boom") (by decide)

end AgentBackend
